import Mathlib

/-!
Verification development for the PicPop client-side protocol layer: the
session/capture state machines and WebSocket transport policies of the two
React clients (a phone-facing web app and a kiosk app), shallowly embedded
from the TypeScript sources.  Each source file ships two variants of the
same component; both are embedded where a claim touches both.

Sources embedded:
- src/frontend/src/App.tsx        (phone app, variants 1 and 2)
- src/frontend/src/hooks/useWebSocket.ts (phone transport)
- src/kiosk/src/App.tsx           (kiosk app, variants 1 and 2)

Conventions: JS numbers become Int, JS strings String, JS `x | null`
becomes Option; where a field can be absent (undefined), explicitly null,
or a number, it becomes Option (Option Int) with none = absent,
some none = null, some (some n) = number.  Millisecond delays are kept in
milliseconds (one spec time-unit = 1000 ms).
-/

namespace PicPop

/-- A photo as held by the phone app (src/frontend/src/types.ts). -/
structure Photo where
  id : String
  sessionId : String
  sequence : Int
  webUrl : String
  thumbnailUrl : String
deriving DecidableEq

/-- JS `x || d` on an optional number: an absent field or 0 (both falsy)
fall back to `d`. -/
def jsOrInt (x : Option Int) (d : Int) : Int :=
  match x with
  | some n => if n = 0 then d else n
  | none => d

/-- JS `x || d` on an optional string: an absent field or the empty string
(both falsy) fall back to `d`. -/
def jsOrStr (x : Option String) (d : String) : String :=
  match x with
  | some s => if s = "" then d else s
  | none => d

namespace Phone

/-- Phone-app state, variant 1 of src/frontend/src/App.tsx (the copy with
photoNumber/totalPhotos and the processing flag).  Each field is one
useState hook of the component. -/
structure State where
  photos : List Photo
  countdown : Option Int
  photoNumber : Int
  totalPhotos : Int
  isCapturing : Bool
  isProcessing : Bool
  kioskConnected : Bool
  stripUrl : Option String
deriving DecidableEq

/-- The useState initial values of the phone app. -/
def initState : State :=
  { photos := [], countdown := none, photoNumber := 1, totalPhotos := 1,
    isCapturing := false, isProcessing := false, kioskConnected := false,
    stripUrl := none }

/-- The fields the phone-app handler reads from `message.data`.  Absent
optional fields are none; the remaining fields are modelled as well-typed
(the source force-casts them). -/
structure Data where
  value : Option Int := none
  photoNumber : Option Int := none
  totalPhotos : Option Int := none
  kioskConnected : Bool := false
  photos : Option (List Photo) := none
  id : String := ""
  sessionId : String := ""
  sequence : Int := 0
  webUrl : String := ""
  thumbnailUrl : String := ""
  stripUrl : Option String := none
deriving DecidableEq

/-- The `{type, data?}` message envelope (src/frontend/src/types.ts). -/
structure Msg where
  type : String
  data : Option Data := none
deriving DecidableEq

/-- The Photo object literal the photo_ready case builds from the payload
(identical in both phone-app variants). -/
def mkPhoto (d : Data) : Photo :=
  { id := d.id, sessionId := d.sessionId, sequence := d.sequence,
    webUrl := d.webUrl, thumbnailUrl := d.thumbnailUrl }

/-- A photo_ready envelope carrying a payload. -/
def photoMsg (d : Data) : Msg :=
  { type := "photo_ready", data := some d }

/-- The message types the variant-1 switch has a case for. -/
def recognizedTypes : List String :=
  ["session_state", "kiosk_connected", "countdown", "capture_start",
   "processing", "photo_ready", "capture_complete", "session_ended"]

/-- handleMessage of phone-app variant 1: the switch on message.type. -/
def handleMessage (m : Msg) (s : State) : State :=
  if m.type = "session_state" then
    match m.data with
    | some d =>
      let s1 := { s with kioskConnected := d.kioskConnected }
      match d.photos with
      | some ps => { s1 with photos := ps }
      | none => s1
    | none => s
  else if m.type = "kiosk_connected" then
    { s with kioskConnected := true }
  else if m.type = "countdown" then
    match m.data with
    | some d =>
      { s with countdown := d.value, photoNumber := jsOrInt d.photoNumber 1,
               totalPhotos := jsOrInt d.totalPhotos 1,
               isCapturing := true, isProcessing := false }
    | none => s
  else if m.type = "capture_start" then
    s
  else if m.type = "processing" then
    { s with countdown := none, isCapturing := true, isProcessing := true }
  else if m.type = "photo_ready" then
    match m.data with
    | some d => { s with photos := s.photos ++ [mkPhoto d] }
    | none => s
  else if m.type = "capture_complete" then
    let s1 := { s with isCapturing := false, isProcessing := false,
                       countdown := none }
    match m.data with
    | some d =>
      match d.stripUrl with
      | some u => if u = "" then s1 else { s1 with stripUrl := some u }
      | none => s1
    | none => s1
  else if m.type = "session_ended" then
    { s with photos := [], isCapturing := false, countdown := none,
             kioskConnected := false }
  else
    s

/-- Fold a message sequence into the state (messages arrive FIFO). -/
def run (ms : List Msg) (s : State) : State :=
  ms.foldl (fun t m => handleMessage m t) s

/-- Screen selection, variant 1: countdown !== null && countdown > 0. -/
def showCountdown (s : State) : Bool :=
  match s.countdown with
  | some v => decide (0 < v)
  | none => false

/-- Screen selection, variant 1: isProcessing && !showCountdown. -/
def showProcessing (s : State) : Bool :=
  s.isProcessing && !showCountdown s

/-- Screen selection, variant 1:
photos.length > 0 && !showCountdown && !showProcessing. -/
def showPhotos (s : State) : Bool :=
  decide (0 < s.photos.length) && !showCountdown s && !showProcessing s

/-- Screen selection, variant 1: the residual waiting screen. -/
def showWaiting (s : State) : Bool :=
  !showCountdown s && !showProcessing s && !showPhotos s

/-- Reconnect scheduling of ws.onclose in useWebSocket.ts: for close codes
other than 1000, 4001 and 4004 exactly one reconnect is scheduled after
3000 ms; those three codes schedule none. -/
def closeReconnectDelay (code : Nat) : Option Nat :=
  if code ≠ 1000 ∧ code ≠ 4001 ∧ code ≠ 4004 then some 3000 else none

end Phone

namespace Phone2

/-- Phone-app state, variant 2 of src/frontend/src/App.tsx (the copy
without photoNumber/totalPhotos and without a processing flag). -/
structure State where
  photos : List Photo
  countdown : Option Int
  isCapturing : Bool
  kioskConnected : Bool
  stripUrl : Option String
deriving DecidableEq

/-- The useState initial values of phone-app variant 2. -/
def initState : State :=
  { photos := [], countdown := none, isCapturing := false,
    kioskConnected := false, stripUrl := none }

/-- The message types the variant-2 switch has a case for (no processing
case in this variant). -/
def recognizedTypes : List String :=
  ["session_state", "kiosk_connected", "countdown", "capture_start",
   "photo_ready", "capture_complete", "session_ended"]

/-- handleMessage of phone-app variant 2; note that capture_start clears
the countdown here, unlike variant 1. -/
def handleMessage (m : Phone.Msg) (s : State) : State :=
  if m.type = "session_state" then
    match m.data with
    | some d =>
      let s1 := { s with kioskConnected := d.kioskConnected }
      match d.photos with
      | some ps => { s1 with photos := ps }
      | none => s1
    | none => s
  else if m.type = "kiosk_connected" then
    { s with kioskConnected := true }
  else if m.type = "countdown" then
    match m.data with
    | some d => { s with countdown := d.value, isCapturing := true }
    | none => s
  else if m.type = "capture_start" then
    { s with countdown := none }
  else if m.type = "photo_ready" then
    match m.data with
    | some d => { s with photos := s.photos ++ [Phone.mkPhoto d] }
    | none => s
  else if m.type = "capture_complete" then
    let s1 := { s with isCapturing := false, countdown := none }
    match m.data with
    | some d =>
      match d.stripUrl with
      | some u => if u = "" then s1 else { s1 with stripUrl := some u }
      | none => s1
    | none => s1
  else if m.type = "session_ended" then
    { s with photos := [], isCapturing := false, countdown := none,
             kioskConnected := false }
  else
    s

/-- Fold a message sequence into the variant-2 state. -/
def run (ms : List Phone.Msg) (s : State) : State :=
  ms.foldl (fun t m => handleMessage m t) s

/-- Screen selection, variant 2: countdown !== null && countdown > 0. -/
def showCountdown (s : State) : Bool :=
  match s.countdown with
  | some v => decide (0 < v)
  | none => false

/-- Screen selection, variant 2: photos.length > 0 && !showCountdown. -/
def showPhotos (s : State) : Bool :=
  decide (0 < s.photos.length) && !showCountdown s

/-- Screen selection, variant 2: the residual waiting screen. -/
def showWaiting (s : State) : Bool :=
  !showCountdown s && !showPhotos s

end Phone2

/-- Outcome of the POST capture call as the kiosk code observes it:
success (2xx), a non-2xx response whose body may carry a detail field
(none also covers an unparseable body), or a rejected fetch carrying an
Error with a message. -/
inductive CaptureResult where
  | success
  | httpFailure (detail : Option String)
  | networkFailure (msg : String)
deriving DecidableEq

/-- The generic capture error text of the kiosk app. -/
def captureFailText : String := "Failed to start capture"

namespace Kiosk

/-- The KioskState union of variant 1: 'welcome' | 'session' | 'capturing'. -/
inductive Screen where
  | welcome
  | session
  | capturing
deriving DecidableEq

/-- SessionData of kiosk variant 1. -/
structure SessionData where
  id : String
  phoneCount : Int
deriving DecidableEq

/-- Photo of kiosk variant 1. -/
structure KPhoto where
  id : String
  thumbnailUrl : String
  webUrl : String
deriving DecidableEq

/-- Fields the kiosk handlers read from `message.data`.  The countdown
value is three-valued: none = field or data absent (undefined), some none
= explicit JSON null, some (some n) = a number. -/
structure Data where
  value : Option (Option Int) := none
  id : String := ""
  webUrl : String := ""
  thumbnailUrl : String := ""
  error : Option String := none
  photoId : String := ""
  sequence : Int := 0
  stripUrl : Option String := none
deriving DecidableEq

/-- The `{type, data?}` envelope as the kiosk reads it. -/
structure Msg where
  type : String
  data : Option Data := none
deriving DecidableEq

/-- Kiosk variant-1 client state: the useState hooks plus the transport
resources the code keeps in refs (wsRef non-null and open, and a pending
reconnect timer).  The isStarting flag guards only the create-session
button and is omitted; no claim touches it. -/
structure Client where
  state : Screen
  session : Option SessionData
  countdown : Option Int
  photos : List KPhoto
  error : Option String
  wsConnected : Bool
  reconnectPending : Bool
deriving DecidableEq

/-- The initial kiosk state ('welcome', no session, no transport). -/
def initClient : Client :=
  { state := .welcome, session := none, countdown := none, photos := [],
    error := none, wsConnected := false, reconnectPending := false }

/-- The kiosk state right after a successful startSession: session stored
with phoneCount 0, photos cleared, screen 'session', socket opened. -/
def sessionStart (id : String) : Client :=
  { state := .session, session := some { id := id, phoneCount := 0 },
    countdown := none, photos := [], error := none, wsConnected := true,
    reconnectPending := false }

def apiBase : String := "http://localhost:8000"

/-- url.startsWith('/') ? API_BASE + url : url (kiosk variant 1
photo_ready). -/
def absolutize (u : String) : String :=
  if u.startsWith "/" then apiBase ++ u else u

/-- The local-teardown tail of endSession (variant 1): close and null the
socket ref, cancel the pending reconnect timer, clear session, photos and
countdown, return to the welcome screen.  The error toast is not touched
there. -/
def endSessionLocal (c : Client) : Client :=
  { state := .welcome, session := none, countdown := none, photos := [],
    error := c.error, wsConnected := false, reconnectPending := false }

/-- The photo object literal of the variant-1 kiosk photo_ready case:
relative URLs are absolutized against API_BASE. -/
def mkPhoto (d : Data) : KPhoto :=
  { id := d.id, thumbnailUrl := absolutize d.thumbnailUrl,
    webUrl := absolutize d.webUrl }

/-- A photo_ready envelope carrying a payload. -/
def photoMsg (d : Data) : Msg :=
  { type := "photo_ready", data := some d }

/-- handleWebSocketMessage of kiosk variant 1.  photo_ready dereferences
message.data without a guard, so an absent data throws (modelled as
Except.error; the onmessage try/catch swallows it).  The Option Nat is the
delay of an error auto-clear timer the case schedules (capture_failed
only).  session_ended invokes endSession, whose local teardown is
endSessionLocal (its HTTP call is best-effort and alters no state). -/
def handleMessage (m : Msg) (c : Client) : Except Unit (Client × Option Nat) :=
  if m.type = "phone_connected" then
    .ok ({ c with session := c.session.map (fun sd => { sd with phoneCount := sd.phoneCount + 1 }) }, none)
  else if m.type = "phone_disconnected" then
    .ok ({ c with session := c.session.map (fun sd => { sd with phoneCount := max 0 (sd.phoneCount - 1) }) }, none)
  else if m.type = "countdown" then
    let v : Option (Option Int) := match m.data with
      | some d => d.value
      | none => none
    let c1 := { c with countdown := match v with
                                    | some (some n) => some n
                                    | _ => none }
    .ok (if v = some none then c1 else { c1 with state := .capturing }, none)
  else if m.type = "photo_ready" then
    match m.data with
    | some d => .ok ({ c with photos := c.photos ++ [mkPhoto d] }, none)
    | none => .error ()
  else if m.type = "capture_complete" then
    .ok ({ c with state := .session, countdown := none }, none)
  else if m.type = "capture_failed" then
    let msg := jsOrStr (m.data.bind (fun d => d.error)) "Capture failed"
    .ok ({ c with state := .session, countdown := none, error := some msg }, some 5000)
  else if m.type = "session_ended" then
    .ok (endSessionLocal c, none)
  else
    .ok (c, none)

/-- One onmessage step: a handler exception is caught and leaves the state
unchanged. -/
def step (m : Msg) (c : Client) : Client :=
  match handleMessage m c with
  | .ok (c2, _) => c2
  | .error _ => c

/-- Fold a message sequence into the kiosk state. -/
def run (ms : List Msg) (c : Client) : Client :=
  ms.foldl (fun t m => step m t) c

/-- startCapture of kiosk variant 1, given the observed HTTP outcome.  On
failure: error := body detail if truthy else the generic text (network
errors carry the thrown Error message), state back to 'session',
countdown cleared, and an error auto-clear timer of 5000 ms  is scheduled
(the Option Nat component). -/
def startCapture (c : Client) (r : CaptureResult) : Client × Option Nat :=
  match c.session with
  | none => (c, none)
  | some _ =>
    match r with
    | .success => (c, none)
    | .httpFailure detail =>
      let msg := jsOrStr detail captureFailText
      ({ c with error := some msg, state := .session, countdown := none }, some 5000)
    | .networkFailure msg =>
      ({ c with error := some msg, state := .session, countdown := none }, some 5000)

/-- endSession of kiosk variant 1: the POST end call is attempted only
when a session exists and its outcome is swallowed; the local teardown is
unconditional.  Returns the new state and whether the HTTP call was
attempted. -/
def endSession (c : Client) (_httpOutcome : Except Unit Unit) : Client × Bool :=
  (endSessionLocal c, c.session.isSome)

/-- Reconnect scheduling of the kiosk ws.onclose: the close code is never
inspected; one reconnect is scheduled after 2000 ms whenever a session is
present. -/
def closeReconnectDelay (hasSession : Bool) (_code : Nat) : Option Nat :=
  if hasSession then some 2000 else none

end Kiosk

namespace Kiosk2

/-- The KioskState union of variant 2:
'idle' | 'session' | 'capturing' | 'reviewing'. -/
inductive Screen where
  | idle
  | session
  | capturing
  | reviewing
deriving DecidableEq

/-- SessionData of kiosk variant 2. -/
structure SessionData where
  id : String
  qrCodeUrl : String
  wifiQrUrl : String
  phoneCount : Int
deriving DecidableEq

/-- Photo of kiosk variant 2. -/
structure KPhoto where
  id : String
  sequence : Int
  url : String
  thumbnailUrl : String
deriving DecidableEq

/-- Kiosk variant-2 client state. -/
structure Client where
  state : Screen
  session : Option SessionData
  countdown : Option Int
  photos : List KPhoto
  stripUrl : Option String
  error : Option String
  wsConnected : Bool
  reconnectPending : Bool
deriving DecidableEq

/-- The initial variant-2 kiosk state. -/
def initClient : Client :=
  { state := .idle, session := none, countdown := none, photos := [],
    stripUrl := none, error := none, wsConnected := false,
    reconnectPending := false }

/-- The variant-2 kiosk state right after a successful createSession. -/
def sessionStart (id qr wifi : String) : Client :=
  { state := .session,
    session := some { id := id, qrCodeUrl := qr, wifiQrUrl := wifi,
                      phoneCount := 0 },
    countdown := none, photos := [], stripUrl := none, error := none,
    wsConnected := true, reconnectPending := false }

/-- The local-teardown tail of endSession (variant 2). -/
def endSessionLocal (c : Client) : Client :=
  { state := .idle, session := none, countdown := none, photos := [],
    stripUrl := none, error := c.error, wsConnected := false,
    reconnectPending := false }

/-- The photo object literal of the variant-2 kiosk photo_ready case: the
id comes from data.photoId and no URL prefixing takes place. -/
def mkPhoto (d : Kiosk.Data) : KPhoto :=
  { id := d.photoId, sequence := d.sequence, url := d.webUrl,
    thumbnailUrl := d.thumbnailUrl }

/-- handleWebSocketMessage of kiosk variant 2.  Identical phoneCount and
countdown logic to variant 1; photo_ready reads data.photoId and performs
no URL prefixing; capture_complete records the strip and moves to
'reviewing'; there is no capture_failed case. -/
def handleMessage (m : Kiosk.Msg) (c : Client) : Except Unit Client :=
  if m.type = "phone_connected" then
    .ok { c with session := c.session.map (fun sd => { sd with phoneCount := sd.phoneCount + 1 }) }
  else if m.type = "phone_disconnected" then
    .ok { c with session := c.session.map (fun sd => { sd with phoneCount := max 0 (sd.phoneCount - 1) }) }
  else if m.type = "countdown" then
    let v : Option (Option Int) := match m.data with
      | some d => d.value
      | none => none
    let c1 := { c with countdown := match v with
                                    | some (some n) => some n
                                    | _ => none }
    .ok (if v = some none then c1 else { c1 with state := .capturing })
  else if m.type = "photo_ready" then
    match m.data with
    | some d => .ok { c with photos := c.photos ++ [mkPhoto d] }
    | none => .error ()
  else if m.type = "capture_complete" then
    .ok { c with stripUrl := m.data.bind (fun d => d.stripUrl), state := .reviewing, countdown := none }
  else if m.type = "session_ended" then
    .ok (endSessionLocal c)
  else
    .ok c

/-- One onmessage step for variant 2; handler exceptions are caught. -/
def step (m : Kiosk.Msg) (c : Client) : Client :=
  match handleMessage m c with
  | .ok c2 => c2
  | .error _ => c

/-- Fold a message sequence into the variant-2 kiosk state. -/
def run (ms : List Kiosk.Msg) (c : Client) : Client :=
  ms.foldl (fun t m => step m t) c

/-- startCapture of kiosk variant 2: photos are cleared before the call;
on any failure the error is always the generic text, the state returns to
'session', the countdown is left untouched and no auto-clear timer is
scheduled (the Option Nat component is always none, kept for symmetry
with variant 1). -/
def startCapture (c : Client) (r : CaptureResult) : Client × Option Nat :=
  match c.session with
  | none => (c, none)
  | some _ =>
    let c1 := { c with photos := ([] : List KPhoto) }
    match r with
    | .success => (c1, none)
    | .httpFailure _ => ({ c1 with error := some captureFailText, state := .session }, none)
    | .networkFailure _ => ({ c1 with error := some captureFailText, state := .session }, none)

/-- endSession of kiosk variant 2: same unconditional local teardown. -/
def endSession (c : Client) (_httpOutcome : Except Unit Unit) : Client × Bool :=
  (endSessionLocal c, c.session.isSome)

end Kiosk2

/-- Minimal JSON value model for the transport layer: what JSON.parse can
return when it does not throw. -/
inductive Json where
  | null
  | bool (b : Bool)
  | num (n : Int)
  | str (s : String)
  | arr (elems : List Json)
  | obj (fields : List (String × Json))

/-- First binding of a key in an object's field list. -/
def lookupField : List (String × Json) → String → Option Json
  | [], _ => none
  | (k, v) :: r, k' => if k = k' then some v else lookupField r k'

/-- JS property access `j.k`: throws (Except.error) on null, yields the
field on an object, and undefined (none) on every other value. -/
def jsonField (j : Json) (k : String) : Except Unit (Option Json) :=
  match j with
  | .null => .error ()
  | .obj fs => .ok (lookupField fs k)
  | _ => .ok none

/-- Whether a JSON value is a `{type, data?}` envelope: an object whose
"type" field is a string. -/
def isEnvelope (j : Json) : Bool :=
  match j with
  | .obj fs =>
    match lookupField fs "type" with
    | some (.str _) => true
    | _ => false
  | _ => false

/-- JS strict comparison `x === "pong"` on a property-access result. -/
def isPongType : Option Json → Bool
  | some (.str s) => s = "pong"
  | _ => false

/-- The phone transport's ws.onmessage (useWebSocket.ts): the whole body
runs in a try/catch.  Input none models a raw frame on which JSON.parse
threw.  Reading message.type throws on null (caught).  pong messages are
consumed silently; anything else is handed to the consumer handler.  The
Bool records whether the handler was invoked. -/
def phoneOnMessage {σ : Type} (parsed : Option Json)
    (handler : Json → σ → σ) (s : σ) : σ × Bool :=
  match parsed with
  | none => (s, false)
  | some j =>
    match jsonField j "type" with
    | .error _ => (s, false)
    | .ok t => if isPongType t then (s, false) else (handler j s, true)

/-- The kiosk's ws.onmessage: parse in a try/catch, then hand every parsed
value to handleWebSocketMessage, whose own exceptions the same catch
swallows. -/
def kioskOnMessage {σ : Type} (parsed : Option Json)
    (handler : Json → σ → Except Unit σ) (s : σ) : σ × Bool :=
  match parsed with
  | none => (s, false)
  | some j =>
    match handler j s with
    | .ok s2 => (s2, true)
    | .error _ => (s, true)

/-- The phone consumer as invoked by the transport on a raw JSON value:
handleMessage switches on message.type, so a non-string type matches no
case and changes nothing.  Decoding of the data object into the typed
payload is abstracted as `dec`; no claim depends on its value. -/
def phonePipeline (dec : Json → Option Phone.Data) (j : Json)
    (s : Phone.State) : Phone.State :=
  match jsonField j "type" with
  | .ok (some (.str t)) => Phone.handleMessage { type := t, data := dec j } s
  | _ => s

/-- The kiosk consumer on a raw JSON value: switch(message.type) throws on
null (propagated to the onmessage catch); a non-string type matches no
case; a string type dispatches into handleWebSocketMessage. -/
def kioskPipeline (dec : Json → Option Kiosk.Data) (j : Json)
    (c : Kiosk.Client) : Except Unit Kiosk.Client :=
  match jsonField j "type" with
  | .error _ => .error ()
  | .ok (some (.str t)) =>
    (Kiosk.handleMessage { type := t, data := dec j } c).map (fun p => p.1)
  | .ok _ => .ok c

/-- Connect/disconnect events for the phoneCount fold. -/
inductive PhoneEvent where
  | connected
  | disconnected
deriving DecidableEq

/-- The kiosk message carrying a phone connect/disconnect event. -/
def PhoneEvent.msg : PhoneEvent → Kiosk.Msg
  | .connected => { type := "phone_connected" }
  | .disconnected => { type := "phone_disconnected" }

/-- Number of connect events in a sequence. -/
def connectCount : List PhoneEvent → Int
  | [] => 0
  | .connected :: r => connectCount r + 1
  | .disconnected :: r => connectCount r

/-- Number of disconnect events in a sequence. -/
def disconnectCount : List PhoneEvent → Int
  | [] => 0
  | .connected :: r => disconnectCount r
  | .disconnected :: r => disconnectCount r + 1

/-- The phoneCount update the kiosk handlers perform, folded over an
event sequence: +1 on connect, −1 floored at 0 on disconnect. -/
def phoneFold (c : Int) : List PhoneEvent → Int
  | [] => c
  | .connected :: r => phoneFold (c + 1) r
  | .disconnected :: r => phoneFold (max 0 (c - 1)) r

/-! ## Theorems -/

/-- Claim C1 counterexample: a kiosk close event with the deliberate close
code 1000 while a session is present still schedules a reconnect (after
2000 ms) — the kiosk onclose never inspects the close code, refuting "if
the close code is 1000, 4001, or 4004, no reconnect attempt is ever
scheduled" for the kiosk transport. -/
theorem c1_counterexample :
    Kiosk.closeReconnectDelay true 1000 = some 2000 := rfl

/-- Claim C1, amended: in the phone transport, close codes 1000, 4001 and
4004 schedule no reconnect, and every other code schedules exactly one
reconnect after the fixed 3000 ms (3 time-units) delay; the kiosk
transport ignores the close code entirely and schedules exactly one
reconnect after 2000 ms iff a session is present. -/
theorem c1_close_code_policy (code : Nat) :
    ((code = 1000 ∨ code = 4001 ∨ code = 4004) →
      Phone.closeReconnectDelay code = none) ∧
    (code ≠ 1000 → code ≠ 4001 → code ≠ 4004 →
      Phone.closeReconnectDelay code = some (3 * 1000)) ∧
    Kiosk.closeReconnectDelay true code = some (2 * 1000) ∧
    Kiosk.closeReconnectDelay false code = none := by
  refine ⟨?_, ?_, rfl, rfl⟩
  · rintro (h | h | h) <;> subst h <;> rfl
  · intro h1 h2 h3
    unfold Phone.closeReconnectDelay
    rw [if_pos ⟨h1, h2, h3⟩]

/-- Claim C1 witness: the amended policy evaluated at the deliberate code
1000 and at the abnormal code 1006. -/
theorem c1_close_code_policy_witness :
    Phone.closeReconnectDelay 1000 = none ∧
    Phone.closeReconnectDelay 1006 = some (3 * 1000) := by
  exact ⟨(c1_close_code_policy 1000).1 (Or.inl rfl),
         (c1_close_code_policy 1006).2.1 (by decide) (by decide) (by decide)⟩

/-- The clamped fold stays non-negative from a non-negative start. -/
theorem phoneFold_nonneg (evs : List PhoneEvent) :
    ∀ c : Int, 0 ≤ c → 0 ≤ phoneFold c evs := by
  induction evs with
  | nil => intro c hc; exact hc
  | cons e r ih =>
    intro c hc
    cases e with
    | connected => exact ih (c + 1) (by omega)
    | disconnected => exact ih (max 0 (c - 1)) (le_max_left 0 (c - 1))

/-- When no prefix of the event sequence over-disconnects relative to the
start value, the clamp never engages and the fold is exact. -/
theorem phoneFold_eq_of_no_underflow (evs : List PhoneEvent) :
    ∀ c : Int, 0 ≤ c →
      (∀ n, n ≤ evs.length →
        disconnectCount (evs.take n) ≤ c + connectCount (evs.take n)) →
      phoneFold c evs = c + connectCount evs - disconnectCount evs := by
  induction evs with
  | nil =>
    intro c _ _
    simp [phoneFold, connectCount, disconnectCount]
  | cons e r ih =>
    intro c hc h
    cases e with
    | connected =>
      have h' : ∀ n, n ≤ r.length →
          disconnectCount (r.take n) ≤ (c + 1) + connectCount (r.take n) := by
        intro n hn
        have hstep := h (n + 1) (by simpa using Nat.succ_le_succ hn)
        simp only [List.take_succ_cons, disconnectCount, connectCount] at hstep
        omega
      have hr := ih (c + 1) (by omega) h'
      simp only [phoneFold, connectCount, disconnectCount]
      omega
    | disconnected =>
      have h1 : (1 : Int) ≤ c := by
        have hstep := h 1 (by simp)
        simp only [List.take_succ_cons, List.take_zero, disconnectCount,
          connectCount] at hstep
        omega
      have hmax : max 0 (c - 1) = c - 1 := max_eq_right (by omega)
      have h' : ∀ n, n ≤ r.length →
          disconnectCount (r.take n) ≤ (c - 1) + connectCount (r.take n) := by
        intro n hn
        have hstep := h (n + 1) (by simpa using Nat.succ_le_succ hn)
        simp only [List.take_succ_cons, disconnectCount, connectCount] at hstep
        omega
      have hr := ih (c - 1) (by omega) h'
      simp only [phoneFold, hmax, connectCount, disconnectCount]
      omega

/-- Folding phone connect/disconnect messages through the variant-1 kiosk
handler updates exactly the session's phoneCount, by the clamped fold. -/
theorem kioskRun_phoneEvents (evs : List PhoneEvent) :
    ∀ (c : Kiosk.Client) (id : String) (cnt : Int),
      c.session = some { id := id, phoneCount := cnt } →
      (Kiosk.run (evs.map PhoneEvent.msg) c).session =
        some { id := id, phoneCount := phoneFold cnt evs } := by
  induction evs with
  | nil =>
    intro c id cnt h
    simpa [Kiosk.run, phoneFold] using h
  | cons e r ih =>
    intro c id cnt h
    have hrun : Kiosk.run ((e :: r).map PhoneEvent.msg) c =
        Kiosk.run (r.map PhoneEvent.msg) (Kiosk.step e.msg c) := rfl
    rw [hrun]
    cases e with
    | connected =>
      simp only [phoneFold]
      exact ih _ id (cnt + 1)
        (by simp [Kiosk.step, Kiosk.handleMessage, PhoneEvent.msg, h])
    | disconnected =>
      simp only [phoneFold]
      exact ih _ id (max 0 (cnt - 1))
        (by simp [Kiosk.step, Kiosk.handleMessage, PhoneEvent.msg, h])

/-- Same fold fact for the variant-2 kiosk handler. -/
theorem kiosk2Run_phoneEvents (evs : List PhoneEvent) :
    ∀ (c : Kiosk2.Client) (id qr wifi : String) (cnt : Int),
      c.session = some { id := id, qrCodeUrl := qr, wifiQrUrl := wifi,
                         phoneCount := cnt } →
      (Kiosk2.run (evs.map PhoneEvent.msg) c).session =
        some { id := id, qrCodeUrl := qr, wifiQrUrl := wifi,
               phoneCount := phoneFold cnt evs } := by
  induction evs with
  | nil =>
    intro c id qr wifi cnt h
    simpa [Kiosk2.run, phoneFold] using h
  | cons e r ih =>
    intro c id qr wifi cnt h
    have hrun : Kiosk2.run ((e :: r).map PhoneEvent.msg) c =
        Kiosk2.run (r.map PhoneEvent.msg) (Kiosk2.step e.msg c) := rfl
    rw [hrun]
    cases e with
    | connected =>
      simp only [phoneFold]
      exact ih _ id qr wifi (cnt + 1)
        (by simp [Kiosk2.step, Kiosk2.handleMessage, PhoneEvent.msg, h])
    | disconnected =>
      simp only [phoneFold]
      exact ih _ id qr wifi (max 0 (cnt - 1))
        (by simp [Kiosk2.step, Kiosk2.handleMessage, PhoneEvent.msg, h])

/-- Claim C2 counterexample: for the sequence disconnect-then-connect,
the folded phoneCount ends at 1, while max(0, connects − disconnects)
is 0 — the clamp is applied per step, not at the end. -/
theorem c2_counterexample :
    (Kiosk.run ([PhoneEvent.disconnected, PhoneEvent.connected].map PhoneEvent.msg)
        (Kiosk.sessionStart "s")).session =
      some { id := "s", phoneCount := 1 } ∧
    max 0 (connectCount [PhoneEvent.disconnected, PhoneEvent.connected] -
      disconnectCount [PhoneEvent.disconnected, PhoneEvent.connected]) = 0 := by
  exact ⟨rfl, rfl⟩

/-- Claim C2, amended: folding phone_connected/phone_disconnected events
into a fresh session (either kiosk variant), the phoneCount is always
non-negative after every prefix; and provided no prefix contains more
disconnects than connects, the final phoneCount equals
max(0, connects − disconnects).  Without that proviso only the
per-step-clamped fold describes the final value. -/
theorem c2_phone_count (evs : List PhoneEvent) (id qr wifi : String) :
    (∀ n : Nat,
      (Kiosk.run ((evs.take n).map PhoneEvent.msg) (Kiosk.sessionStart id)).session =
        some { id := id, phoneCount := phoneFold 0 (evs.take n) } ∧
      0 ≤ phoneFold 0 (evs.take n)) ∧
    ((∀ n, n ≤ evs.length →
        disconnectCount (evs.take n) ≤ connectCount (evs.take n)) →
      (Kiosk.run (evs.map PhoneEvent.msg) (Kiosk.sessionStart id)).session =
        some { id := id,
               phoneCount := max 0 (connectCount evs - disconnectCount evs) } ∧
      (Kiosk2.run (evs.map PhoneEvent.msg) (Kiosk2.sessionStart id qr wifi)).session =
        some { id := id, qrCodeUrl := qr, wifiQrUrl := wifi,
               phoneCount := max 0 (connectCount evs - disconnectCount evs) }) ∧
    (∀ n : Nat,
      (Kiosk2.run ((evs.take n).map PhoneEvent.msg)
          (Kiosk2.sessionStart id qr wifi)).session =
        some { id := id, qrCodeUrl := qr, wifiQrUrl := wifi,
               phoneCount := phoneFold 0 (evs.take n) }) := by
  have hfold : ∀ (h : ∀ n, n ≤ evs.length →
      disconnectCount (evs.take n) ≤ connectCount (evs.take n)),
      phoneFold 0 evs = max 0 (connectCount evs - disconnectCount evs) := by
    intro h
    have hle : disconnectCount evs ≤ connectCount evs := by
      have := h evs.length (le_refl _)
      simpa [List.take_length] using this
    have heq := phoneFold_eq_of_no_underflow evs 0 (le_refl 0)
      (by intro n hn; have := h n hn; omega)
    rw [heq, max_eq_right (by omega)]
    omega
  refine ⟨?_, ?_, ?_⟩
  · intro n
    exact ⟨kioskRun_phoneEvents (evs.take n) (Kiosk.sessionStart id) id 0 rfl,
           phoneFold_nonneg (evs.take n) 0 (le_refl 0)⟩
  · intro h
    constructor
    · rw [← hfold h]
      exact kioskRun_phoneEvents evs (Kiosk.sessionStart id) id 0 rfl
    · rw [← hfold h]
      exact kiosk2Run_phoneEvents evs (Kiosk2.sessionStart id qr wifi) id qr wifi 0 rfl
  · intro n
    exact kiosk2Run_phoneEvents (evs.take n) (Kiosk2.sessionStart id qr wifi)
      id qr wifi 0 rfl

/-- Claim C2 witness: the amended statement at the concrete sequence
connect, connect, disconnect, whose prefixes never over-disconnect. -/
theorem c2_phone_count_witness :
    (Kiosk.run ([PhoneEvent.connected, PhoneEvent.connected,
        PhoneEvent.disconnected].map PhoneEvent.msg)
        (Kiosk.sessionStart "s")).session =
      some { id := "s",
             phoneCount := max 0 (connectCount [PhoneEvent.connected,
               PhoneEvent.connected, PhoneEvent.disconnected] -
               disconnectCount [PhoneEvent.connected, PhoneEvent.connected,
               PhoneEvent.disconnected]) } := by
  exact ((c2_phone_count [PhoneEvent.connected, PhoneEvent.connected,
    PhoneEvent.disconnected] "s" "q" "w").2.1 (by decide)).1

/-- Claim C5 counterexample: in phone-app variant 2, capture_start is not
a no-op — it clears an in-flight countdown of 3. -/
theorem c5_counterexample :
    Phone2.handleMessage { type := "capture_start" }
        { Phone2.initState with countdown := some 3 } ≠
      { Phone2.initState with countdown := some 3 } := by
  decide

/-- Claim C5, amended: in phone-app variant 1, capture_start changes no
state field; in variant 2 it sets the countdown to null and changes
nothing else. -/
theorem c5_capture_start :
    (∀ (s : Phone.State) (d : Option Phone.Data),
      Phone.handleMessage { type := "capture_start", data := d } s = s) ∧
    (∀ (t : Phone2.State) (d : Option Phone.Data),
      Phone2.handleMessage { type := "capture_start", data := d } t =
        { t with countdown := none }) := by
  constructor
  · intro s d
    simp [Phone.handleMessage]
  · intro t d
    simp [Phone2.handleMessage]

/-- Claim C6 counterexample: a session_ended event does not clear the
processing flag in phone-app variant 1 — from a state with isProcessing
set, the flag is still set afterwards, refuting "the processing flag is
cleared". -/
theorem c6_counterexample :
    (Phone.handleMessage { type := "session_ended" }
        { Phone.initState with isProcessing := true }).isProcessing = true := by
  decide

/-- Claim C6, amended: in both phone-app variants, session_ended empties
the photo list, clears the countdown, clears the capturing flag and
resets the kiosk-connected flag — but in variant 1 it leaves the
processing flag (as well as stripUrl, photoNumber and totalPhotos)
unchanged, and the phone app holds no phoneCount at all. -/
theorem c6_session_ended :
    (∀ (s : Phone.State) (d : Option Phone.Data),
      Phone.handleMessage { type := "session_ended", data := d } s =
        { s with photos := [], isCapturing := false, countdown := none,
                 kioskConnected := false }) ∧
    (∀ (t : Phone2.State) (d : Option Phone.Data),
      Phone2.handleMessage { type := "session_ended", data := d } t =
        { t with photos := [], isCapturing := false, countdown := none,
                 kioskConnected := false }) := by
  constructor
  · intro s d
    simp [Phone.handleMessage]
  · intro t d
    simp [Phone2.handleMessage]

/-- One photo_ready step of the variant-1 phone handler appends exactly
the payload's photo. -/
theorem phone_photoReady_step (d : Phone.Data) (s : Phone.State) :
    Phone.handleMessage (Phone.photoMsg d) s =
      { s with photos := s.photos ++ [Phone.mkPhoto d] } := by
  simp [Phone.handleMessage, Phone.photoMsg]

/-- One photo_ready step of the variant-1 kiosk handler. -/
theorem kiosk_photoReady_step (d : Kiosk.Data) (c : Kiosk.Client) :
    Kiosk.step (Kiosk.photoMsg d) c =
      { c with photos := c.photos ++ [Kiosk.mkPhoto d] } := by
  simp [Kiosk.step, Kiosk.handleMessage, Kiosk.photoMsg]

/-- One photo_ready step of the variant-2 kiosk handler. -/
theorem kiosk2_photoReady_step (d : Kiosk.Data) (c : Kiosk2.Client) :
    Kiosk2.step (Kiosk.photoMsg d) c =
      { c with photos := c.photos ++ [Kiosk2.mkPhoto d] } := by
  simp [Kiosk2.step, Kiosk2.handleMessage, Kiosk.photoMsg]

/-- Folding photo_ready messages through the variant-1 phone handler
appends their photos in arrival order. -/
theorem phoneRun_photoReady (ds : List Phone.Data) :
    ∀ s : Phone.State,
      (Phone.run (ds.map Phone.photoMsg) s).photos =
        s.photos ++ ds.map Phone.mkPhoto := by
  induction ds with
  | nil => intro s; simp [Phone.run]
  | cons d r ih =>
    intro s
    have hrun : Phone.run ((d :: r).map Phone.photoMsg) s =
        Phone.run (r.map Phone.photoMsg)
          (Phone.handleMessage (Phone.photoMsg d) s) := rfl
    rw [hrun, phone_photoReady_step, ih]
    simp

/-- Folding photo_ready messages through the variant-1 kiosk handler. -/
theorem kioskRun_photoReady (ds : List Kiosk.Data) :
    ∀ c : Kiosk.Client,
      (Kiosk.run (ds.map Kiosk.photoMsg) c).photos =
        c.photos ++ ds.map Kiosk.mkPhoto := by
  induction ds with
  | nil => intro c; simp [Kiosk.run]
  | cons d r ih =>
    intro c
    have hrun : Kiosk.run ((d :: r).map Kiosk.photoMsg) c =
        Kiosk.run (r.map Kiosk.photoMsg) (Kiosk.step (Kiosk.photoMsg d) c) := rfl
    rw [hrun, kiosk_photoReady_step, ih]
    simp

/-- Folding photo_ready messages through the variant-2 kiosk handler. -/
theorem kiosk2Run_photoReady (ds : List Kiosk.Data) :
    ∀ c : Kiosk2.Client,
      (Kiosk2.run (ds.map Kiosk.photoMsg) c).photos =
        c.photos ++ ds.map Kiosk2.mkPhoto := by
  induction ds with
  | nil => intro c; simp [Kiosk2.run]
  | cons d r ih =>
    intro c
    have hrun : Kiosk2.run ((d :: r).map Kiosk.photoMsg) c =
        Kiosk2.run (r.map Kiosk.photoMsg) (Kiosk2.step (Kiosk.photoMsg d) c) := rfl
    rw [hrun, kiosk2_photoReady_step, ih]
    simp

/-- Claim C3: N photo_ready events, each carrying a payload, fold into a
photo list of exactly N entries in arrival order — from the initial state
the list is exactly the arrival-ordered image of the payloads, and from an
arbitrary state they strictly append; the payloads' sequence fields are
unconstrained, so the result is independent of them.  Shown for the phone
handler and both kiosk handlers. -/
theorem c3_photo_ready_append (ds : List Phone.Data) (ks : List Kiosk.Data)
    (s : Phone.State) (c : Kiosk.Client) (c2 : Kiosk2.Client) :
    (Phone.run (ds.map Phone.photoMsg) s).photos =
      s.photos ++ ds.map Phone.mkPhoto ∧
    (Phone.run (ds.map Phone.photoMsg) Phone.initState).photos =
      ds.map Phone.mkPhoto ∧
    ((Phone.run (ds.map Phone.photoMsg) Phone.initState).photos).length =
      ds.length ∧
    (Kiosk.run (ks.map Kiosk.photoMsg) c).photos =
      c.photos ++ ks.map Kiosk.mkPhoto ∧
    ((Kiosk.run (ks.map Kiosk.photoMsg) (Kiosk.sessionStart "s")).photos).length =
      ks.length ∧
    (Kiosk2.run (ks.map Kiosk.photoMsg) c2).photos =
      c2.photos ++ ks.map Kiosk2.mkPhoto := by
  refine ⟨phoneRun_photoReady ds s, ?_, ?_, kioskRun_photoReady ks c, ?_,
    kiosk2Run_photoReady ks c2⟩
  · simpa [Phone.initState] using phoneRun_photoReady ds Phone.initState
  · rw [phoneRun_photoReady ds Phone.initState]
    simp [Phone.initState]
  · rw [kioskRun_photoReady ks (Kiosk.sessionStart "s")]
    simp [Kiosk.sessionStart]

/-- Screen-selection facts for phone-app variant 1: first-match
precedence and mutual exclusion of the four screens. -/
theorem phone_screens (s : Phone.State) :
    (Phone.showCountdown s = true ↔ ∃ v, s.countdown = some v ∧ 0 < v) ∧
    (Phone.showCountdown s = false →
      (Phone.showProcessing s = true ↔ s.isProcessing = true)) ∧
    (Phone.showCountdown s = false → Phone.showProcessing s = false →
      (Phone.showPhotos s = true ↔ s.photos ≠ [])) ∧
    (Phone.showCountdown s = false → Phone.showProcessing s = false →
      Phone.showPhotos s = false → Phone.showWaiting s = true) ∧
    (Phone.showCountdown s).toNat + (Phone.showProcessing s).toNat +
      (Phone.showPhotos s).toNat + (Phone.showWaiting s).toNat = 1 := by
  obtain ⟨ph, cd, pn, tp, cap, proc, kc, su⟩ := s
  simp only [Phone.showCountdown, Phone.showProcessing, Phone.showPhotos,
    Phone.showWaiting]
  cases cd with
  | none => cases proc <;> cases ph <;> simp
  | some v =>
    by_cases h : 0 < v <;> cases proc <;> cases ph <;> simp [h]

/-- Screen-selection facts for phone-app variant 2: three screens, same
precedence without a processing screen. -/
theorem phone2_screens (t : Phone2.State) :
    (Phone2.showCountdown t = true ↔ ∃ v, t.countdown = some v ∧ 0 < v) ∧
    (Phone2.showCountdown t = false →
      (Phone2.showPhotos t = true ↔ t.photos ≠ [])) ∧
    (Phone2.showCountdown t = false → Phone2.showPhotos t = false →
      Phone2.showWaiting t = true) ∧
    (Phone2.showCountdown t).toNat + (Phone2.showPhotos t).toNat +
      (Phone2.showWaiting t).toNat = 1 := by
  obtain ⟨ph, cd, cap, kc, su⟩ := t
  simp only [Phone2.showCountdown, Phone2.showPhotos, Phone2.showWaiting]
  cases cd with
  | none => cases ph <;> simp
  | some v =>
    by_cases h : 0 < v <;> cases ph <;> simp [h]

/-- Claim C4: screen selection is top-down first-match — the countdown
screen shows iff the countdown is set and positive; otherwise the
processing screen iff the processing flag is set; otherwise the photos
screen iff the photo list is non-empty; otherwise the waiting screen; and
the Bool-count conjuncts state that exactly one screen shows.  Proved for
every state (a superset of the reachable ones) of variant 1, and for the
three-screen selection of variant 2, which has no processing screen. -/
theorem c4_screen_selection (s : Phone.State) (t : Phone2.State) :
    ((Phone.showCountdown s = true ↔ ∃ v, s.countdown = some v ∧ 0 < v) ∧
     (Phone.showCountdown s = false →
       (Phone.showProcessing s = true ↔ s.isProcessing = true)) ∧
     (Phone.showCountdown s = false → Phone.showProcessing s = false →
       (Phone.showPhotos s = true ↔ s.photos ≠ [])) ∧
     (Phone.showCountdown s = false → Phone.showProcessing s = false →
       Phone.showPhotos s = false → Phone.showWaiting s = true) ∧
     (Phone.showCountdown s).toNat + (Phone.showProcessing s).toNat +
       (Phone.showPhotos s).toNat + (Phone.showWaiting s).toNat = 1) ∧
    ((Phone2.showCountdown t = true ↔ ∃ v, t.countdown = some v ∧ 0 < v) ∧
     (Phone2.showCountdown t = false →
       (Phone2.showPhotos t = true ↔ t.photos ≠ [])) ∧
     (Phone2.showCountdown t = false → Phone2.showPhotos t = false →
       Phone2.showWaiting t = true) ∧
     (Phone2.showCountdown t).toNat + (Phone2.showPhotos t).toNat +
       (Phone2.showWaiting t).toNat = 1) :=
  ⟨phone_screens s, phone2_screens t⟩

/-- Claim C4 witness: the selection evaluated at a state showing the
processing screen (variant 1) and a state showing the photos screen
(variant 2). -/
theorem c4_screen_selection_witness :
    Phone.showProcessing { Phone.initState with isProcessing := true } = true ∧
    Phone2.showPhotos { Phone2.initState with
      photos := [{ id := "p", sessionId := "s", sequence := 1,
                   webUrl := "w", thumbnailUrl := "t" }] } = true := by
  constructor
  · exact ((c4_screen_selection { Phone.initState with isProcessing := true }
      Phone2.initState).1.2.1 (by decide)).mpr rfl
  · exact ((c4_screen_selection Phone.initState { Phone2.initState with
      photos := [{ id := "p", sessionId := "s", sequence := 1,
                   webUrl := "w", thumbnailUrl := "t" }] }).2.2.1
      (by decide)).mpr (by decide)

/-- Claim C7 counterexample: in kiosk variant 2, a failed capture call
returning HTTP 409 with body detail "camera busy" from a capturing state
with countdown running shows the generic error text instead of the body's
detail, leaves the countdown uncleared, and schedules no auto-clear timer
— refuting the claimed revert-and-surface behavior for that variant. -/
theorem c7_counterexample :
    (Kiosk2.startCapture
        { Kiosk2.sessionStart "s" "q" "w" with countdown := some 3 }
        (.httpFailure (some "camera busy"))).1.error =
      some "Failed to start capture" ∧
    (Kiosk2.startCapture
        { Kiosk2.sessionStart "s" "q" "w" with countdown := some 3 }
        (.httpFailure (some "camera busy"))).1.countdown = some 3 ∧
    (Kiosk2.startCapture
        { Kiosk2.sessionStart "s" "q" "w" with countdown := some 3 }
        (.httpFailure (some "camera busy"))).2 = none := by
  exact ⟨rfl, rfl, rfl⟩

/-- Claim C7, amended: in kiosk variant 1, a failed startCapture (non-2xx
or network error) reverts the state to 'session', clears the countdown,
surfaces the body's detail field when it is a non-empty string and the
generic message otherwise (network errors surface the thrown message),
and schedules a 5000 ms (5 time-unit) auto-clear; in kiosk variant 2 the
failure path always surfaces the generic message, does not clear the
countdown, and schedules no auto-clear. -/
theorem c7_start_capture_failure (c : Kiosk.Client) (c2 : Kiosk2.Client)
    (detail : Option String) (msg : String) :
    (c.session.isSome = true →
      Kiosk.startCapture c (.httpFailure detail) =
        ({ c with error := some (jsOrStr detail captureFailText),
                  state := .session, countdown := none }, some (5 * 1000)) ∧
      Kiosk.startCapture c (.networkFailure msg) =
        ({ c with error := some msg, state := .session, countdown := none },
          some (5 * 1000))) ∧
    (c2.session.isSome = true →
      Kiosk2.startCapture c2 (.httpFailure detail) =
        ({ c2 with photos := [], error := some captureFailText,
                   state := .session }, none) ∧
      Kiosk2.startCapture c2 (.networkFailure msg) =
        ({ c2 with photos := [], error := some captureFailText,
                   state := .session }, none)) := by
  constructor
  · intro h
    obtain ⟨sd, hsd⟩ := Option.isSome_iff_exists.mp h
    constructor <;> simp [Kiosk.startCapture, hsd]
  · intro h
    obtain ⟨sd, hsd⟩ := Option.isSome_iff_exists.mp h
    constructor <;> simp [Kiosk2.startCapture, hsd]

/-- Claim C7 witness: the amended failure behavior at a concrete capturing
state, a 409 body carrying detail "camera busy", and a network error. -/
theorem c7_start_capture_failure_witness :
    Kiosk.startCapture { Kiosk.sessionStart "s" with countdown := some 3 }
        (.httpFailure (some "camera busy")) =
      ({ Kiosk.sessionStart "s" with countdown := none,
                                     error := some "camera busy",
                                     state := .session }, some (5 * 1000)) := by
  have h := (c7_start_capture_failure
    { Kiosk.sessionStart "s" with countdown := some 3 }
    Kiosk2.initClient (some "camera busy") "net down").1 (by decide)
  simpa [Kiosk.sessionStart, jsOrStr, captureFailText] using h.1

/-- Claim C8: endSession always performs the full local teardown — socket
closed, pending reconnect timer cancelled, session, photos and countdown
reset, screen back to the no-session screen — with a result independent
of the HTTP outcome (the end call is attempted only when a session
exists); and from the no-session initial state it is a no-op (both kiosk
variants).  Totality of the Lean function models "does not throw". -/
theorem c8_end_session (c : Kiosk.Client) (c2 : Kiosk2.Client)
    (r r' : Except Unit Unit) :
    (Kiosk.endSession c r).1 =
      { state := .welcome, session := none, countdown := none, photos := [],
        error := c.error, wsConnected := false, reconnectPending := false } ∧
    (Kiosk.endSession c r).2 = c.session.isSome ∧
    Kiosk.endSession c r = Kiosk.endSession c r' ∧
    Kiosk.endSession Kiosk.initClient r = (Kiosk.initClient, false) ∧
    (Kiosk2.endSession c2 r).1 =
      { state := .idle, session := none, countdown := none, photos := [],
        stripUrl := none, error := c2.error, wsConnected := false,
        reconnectPending := false } ∧
    (Kiosk2.endSession c2 r).2 = c2.session.isSome ∧
    Kiosk2.endSession Kiosk2.initClient r = (Kiosk2.initClient, false) := by
  exact ⟨rfl, rfl, rfl, rfl, rfl, rfl, rfl⟩

/-- Claim C9 counterexample: the raw frame "42" is valid JSON but not a
type/data envelope, yet the transport invokes the consumer handler on it
(the invoked flag of the onmessage step is true) — refuting "the state
machine's handler is never invoked" for every message that fails to parse
as an envelope. -/
theorem c9_counterexample :
    isEnvelope (Json.num 42) = false ∧
    (phoneOnMessage (some (Json.num 42)) (phonePipeline (fun _ => none))
      Phone.initState).2 = true := by
  exact ⟨rfl, rfl⟩

/-- Claim C9, amended: a frame on which JSON parsing throws, and the JSON
value null (reading whose type field throws), are dropped by the phone
transport without invoking the handler and without any state change; a
frame that parses as JSON but is not a type/data envelope may reach the
handler, but the composed message processing still leaves every state
field unchanged; and no input makes processing raise to the transport or
its consumer (the step functions are total, mirroring the enclosing
try/catch).  The kiosk onmessage enjoys the same no-state-change
property. -/
theorem c9_malformed_dropped (dec : Json → Option Phone.Data)
    (kdec : Json → Option Kiosk.Data) (s : Phone.State) (c : Kiosk.Client)
    (j : Json) :
    phoneOnMessage none (phonePipeline dec) s = (s, false) ∧
    phoneOnMessage (some Json.null) (phonePipeline dec) s = (s, false) ∧
    (isEnvelope j = false →
      (phoneOnMessage (some j) (phonePipeline dec) s).1 = s) ∧
    kioskOnMessage none (kioskPipeline kdec) c = (c, false) ∧
    (isEnvelope j = false →
      (kioskOnMessage (some j) (kioskPipeline kdec) c).1 = c) := by
  refine ⟨rfl, rfl, ?_, rfl, ?_⟩
  · intro h
    cases j with
    | null => rfl
    | bool b => rfl
    | num n => rfl
    | str a => rfl
    | arr es => rfl
    | obj fs =>
      cases hl : lookupField fs "type" with
      | none =>
        simp [phoneOnMessage, phonePipeline, jsonField, isPongType, hl]
      | some jv =>
        cases jv with
        | str a =>
          exfalso
          simp [isEnvelope, hl] at h
        | null =>
          simp [phoneOnMessage, phonePipeline, jsonField, isPongType, hl]
        | bool b =>
          simp [phoneOnMessage, phonePipeline, jsonField, isPongType, hl]
        | num n =>
          simp [phoneOnMessage, phonePipeline, jsonField, isPongType, hl]
        | arr es =>
          simp [phoneOnMessage, phonePipeline, jsonField, isPongType, hl]
        | obj gs =>
          simp [phoneOnMessage, phonePipeline, jsonField, isPongType, hl]
  · intro h
    cases j with
    | null => rfl
    | bool b => rfl
    | num n => rfl
    | str a => rfl
    | arr es => rfl
    | obj fs =>
      cases hl : lookupField fs "type" with
      | none =>
        simp [kioskOnMessage, kioskPipeline, jsonField, hl]
      | some jv =>
        cases jv with
        | str a =>
          exfalso
          simp [isEnvelope, hl] at h
        | null =>
          simp [kioskOnMessage, kioskPipeline, jsonField, hl]
        | bool b =>
          simp [kioskOnMessage, kioskPipeline, jsonField, hl]
        | num n =>
          simp [kioskOnMessage, kioskPipeline, jsonField, hl]
        | arr es =>
          simp [kioskOnMessage, kioskPipeline, jsonField, hl]
        | obj gs =>
          simp [kioskOnMessage, kioskPipeline, jsonField, hl]

/-- Claim C9 witness: the amended statement at the non-envelope JSON
value 42. -/
theorem c9_malformed_dropped_witness :
    (phoneOnMessage (some (Json.num 42)) (phonePipeline (fun _ => none))
      Phone.initState).1 = Phone.initState ∧
    (kioskOnMessage (some (Json.num 42)) (kioskPipeline (fun _ => none))
      Kiosk.initClient).1 = Kiosk.initClient := by
  have h := c9_malformed_dropped (fun _ => none) (fun _ => none)
    Phone.initState Kiosk.initClient (Json.num 42)
  exact ⟨h.2.2.1 rfl, h.2.2.2.2 rfl⟩

/-- Claim C10: in both phone-app variants, a session_state, countdown or
photo_ready message with no data field changes no state field, and a
message whose type is outside the variant's recognized set changes no
state field either. -/
theorem c10_missing_data_ignored (s : Phone.State) (t : Phone2.State)
    (ty : String) (d : Option Phone.Data) :
    Phone.handleMessage { type := "session_state", data := none } s = s ∧
    Phone.handleMessage { type := "countdown", data := none } s = s ∧
    Phone.handleMessage { type := "photo_ready", data := none } s = s ∧
    (ty ∉ Phone.recognizedTypes →
      Phone.handleMessage { type := ty, data := d } s = s) ∧
    Phone2.handleMessage { type := "session_state", data := none } t = t ∧
    Phone2.handleMessage { type := "countdown", data := none } t = t ∧
    Phone2.handleMessage { type := "photo_ready", data := none } t = t ∧
    (ty ∉ Phone2.recognizedTypes →
      Phone2.handleMessage { type := ty, data := d } t = t) := by
  refine ⟨by simp [Phone.handleMessage], by simp [Phone.handleMessage],
          by simp [Phone.handleMessage], ?_, by simp [Phone2.handleMessage],
          by simp [Phone2.handleMessage], by simp [Phone2.handleMessage], ?_⟩
  · intro h
    simp only [Phone.recognizedTypes, List.mem_cons, List.not_mem_nil,
      or_false, not_or] at h
    obtain ⟨h1, h2, h3, h4, h5, h6, h7, h8⟩ := h
    simp [Phone.handleMessage, h1, h2, h3, h4, h5, h6, h7, h8]
  · intro h
    simp only [Phone2.recognizedTypes, List.mem_cons, List.not_mem_nil,
      or_false, not_or] at h
    obtain ⟨h1, h2, h3, h4, h5, h6, h7⟩ := h
    simp [Phone2.handleMessage, h1, h2, h3, h4, h5, h6, h7]

/-- Claim C10 witness: the frame-effect facts at the unrecognized type
"mystery" and the initial states. -/
theorem c10_missing_data_ignored_witness :
    Phone.handleMessage { type := "mystery", data := none } Phone.initState =
      Phone.initState ∧
    Phone2.handleMessage { type := "mystery", data := none } Phone2.initState =
      Phone2.initState := by
  have h := c10_missing_data_ignored Phone.initState Phone2.initState
    "mystery" none
  exact ⟨h.2.2.2.1 (by decide), h.2.2.2.2.2.2.2 (by decide)⟩

end PicPop

